import Mathlib

/-!
Verification of the ARBITRAGEXPLUS-II MEV engine against its natural-language
specification.  The Rust sources are shallowly embedded: `f64` arithmetic is
modelled by exact rationals (ℚ), machine integers (`u16`, `u32`, `u64`,
`u128`, `U256`) by `Nat`, signed timestamps (`i64` seconds / milliseconds) by
`Int`, and Rust `as`-casts from a non-negative float to an unsigned integer by
`Rat.floor` followed by `Int.toNat` (the cast truncates toward zero and
saturates negative values to zero).  Fallible operations return `Except`.
-/

namespace ArbX

/-! ### Profitability guard (src/rust-core/src/execution/profitability_guard.rs) -/

/-- Embedding of `ProfitabilityConfig`.  Float fields become ℚ, the
`u16` bps fields become `Nat`. -/
structure ProfitabilityConfig where
  min_ev_usd : ℚ
  haircut_percentage : ℚ
  max_slippage_bps : Nat
  max_gas_usd : ℚ
  max_flash_fee_bps : Nat
  max_builder_tip_usd : ℚ
deriving Repr, DecidableEq

/-- Embedding of `ArbitrageOpportunity` restricted to the fields read by the
profitability guard (`expected_value_usd`; the `id` is only used for
logging/persistence). -/
structure ArbitrageOpportunity where
  id : String
  expected_value_usd : ℚ
deriving Repr, DecidableEq

/-- Embedding of `ProfitabilityGuard::is_profitable`.  The database
side-effect (metric persistence) is dropped; the returned pair
`(is_profitable, net_ev)` is exactly the function's result. -/
def is_profitable (config : ProfitabilityConfig) (opportunity : ArbitrageOpportunity)
    (gas_cost_usd flash_fee_usd builder_tip_usd : ℚ) : Bool × ℚ :=
  let raw_ev := opportunity.expected_value_usd
  let slippage_usd := raw_ev * ((config.max_slippage_bps : ℚ) / 10000)
  let haircut_usd := raw_ev * (config.haircut_percentage / 100)
  let net_ev := raw_ev - gas_cost_usd - flash_fee_usd - slippage_usd
      - builder_tip_usd - haircut_usd
  (decide (net_ev ≥ config.min_ev_usd), net_ev)

/-- Embedding of `ProfitabilityGuard::update_config`: the supplied
configuration replaces the previous one unconditionally (the Rust function
body is a single assignment under the write lock; it performs no validation
and cannot fail). -/
def update_config (_old_config new_config : ProfitabilityConfig) : ProfitabilityConfig :=
  new_config

/-- Test configuration of scenario S1 (also the unit test in the source). -/
def s1Config : ProfitabilityConfig :=
  { min_ev_usd := 5
    haircut_percentage := 10
    max_slippage_bps := 20
    max_gas_usd := 30
    max_flash_fee_bps := 30
    max_builder_tip_usd := 1/2 }

/-- Test opportunity of scenario S1. -/
def s1Opportunity : ArbitrageOpportunity :=
  { id := "s1", expected_value_usd := 100 }

/-! ### Nonce manager (src/rust-core/src/execution/nonce_manager.rs) -/

/-- Embedding of `TxState`. -/
inductive TxState where
  | Pending
  | Mined
  | Failed
  | Replaced
  | Expired
deriving Repr, DecidableEq

/-- Embedding of `NonceManagerConfig`.  `tx_timeout_secs` (`u64`) and
`max_retry_count` (`u32`) become `Nat`; the float bump percentage becomes ℚ. -/
structure NonceManagerConfig where
  chain_id : String
  tx_timeout_secs : Nat
  max_retry_count : Nat
  retry_wait_ms : Nat
  use_eip1559 : Bool
  priority_fee_bump_percent : ℚ
deriving Repr, DecidableEq

/-- Embedding of `TxInfo`; hashes and `U256` quantities become `Nat`,
`chrono` timestamps become `Int` seconds. -/
structure TxInfo where
  hash : Nat
  state : TxState
  nonce : Nat
  gas_price : Nat
  block_number : Option Nat
  created_at : Int
  updated_at : Int
  retry_count : Nat
deriving Repr, DecidableEq

/-- Key of the `pending_txs` map: `(chain_id, wallet, nonce)`. -/
structure TxKey where
  chain : String
  wallet : Nat
  nonce : Nat
deriving Repr, DecidableEq

/-- The `pending_txs` in-memory map, embedded as an association list. -/
abbrev PendingTxs := List (TxKey × TxInfo)

/-- Map lookup (`HashMap::get`). -/
def lookupTx (m : PendingTxs) (k : TxKey) : Option TxInfo :=
  (m.find? fun p => p.1 = k).map Prod.snd

/-- Map removal (`HashMap::remove`). -/
def removeTx (m : PendingTxs) (k : TxKey) : PendingTxs :=
  m.filter fun p => p.1 ≠ k

/-- Map insertion (`HashMap::insert` replaces any previous binding). -/
def insertTx (m : PendingTxs) (k : TxKey) (v : TxInfo) : PendingTxs :=
  (k, v) :: removeTx m k

/-- The default per-chain configuration built inline by `should_replace_tx`
and `create_replacement_tx` when the chain has no entry in `configs`
(`DEFAULT_TX_TIMEOUT_SECS = 180`, `max_retry_count`: 3, bump 10 %). -/
def defaultNonceConfig (chain : String) : NonceManagerConfig :=
  { chain_id := chain
    tx_timeout_secs := 180
    max_retry_count := 3
    retry_wait_ms := 5000
    use_eip1559 := true
    priority_fee_bump_percent := 10 }

/-- Config lookup with the inline default
(`configs.get(chain_id).cloned().unwrap_or_else(...)`). -/
def getChainConfig (cfgs : List (String × NonceManagerConfig)) (chain : String) :
    NonceManagerConfig :=
  match cfgs.lookup chain with
  | some c => c
  | none => defaultNonceConfig chain

/-- Embedding of `NonceManager::register_tx` (the Redis mirror write is
dropped; the in-memory map is returned). -/
def register_tx (m : PendingTxs) (chain : String) (wallet : Nat) (hash : Nat)
    (nonce : Nat) (gas_price : Nat) (now : Int) : PendingTxs :=
  insertTx m ⟨chain, wallet, nonce⟩
    { hash := hash
      state := TxState.Pending
      nonce := nonce
      gas_price := gas_price
      block_number := none
      created_at := now
      updated_at := now
      retry_count := 0 }

/-- Embedding of `NonceManager::cleanup_tx`. -/
def cleanup_tx (m : PendingTxs) (k : TxKey) : PendingTxs :=
  removeTx m k

/-- Embedding of `NonceManager::update_tx_state`: on a hit the entry is
rewritten with the new state; if the new state is `Mined` or `Failed` the
entry is then released through `cleanup_tx`; on a miss the call fails. -/
def update_tx_state (m : PendingTxs) (k : TxKey) (new_state : TxState)
    (block_number : Option Nat) (now : Int) : Except String PendingTxs :=
  match lookupTx m k with
  | some tx_info =>
    let tx_info2 := { tx_info with
      state := new_state
      updated_at := now
      block_number := block_number }
    let m2 := insertTx m k tx_info2
    if new_state = TxState.Mined ∨ new_state = TxState.Failed then
      Except.ok (cleanup_tx m2 k)
    else
      Except.ok m2
  | none => Except.error "no transaction found"

/-- Embedding of `NonceManager::should_replace_tx`.  `receipt` is the
flattened result of the provider's receipt query (`none` covers both an RPC
error and an empty receipt, exactly the cases in which the Rust code keeps
going); `now` is the current time in seconds. -/
def should_replace_tx (m : PendingTxs) (cfgs : List (String × NonceManagerConfig))
    (k : TxKey) (receipt : Option Nat) (now : Int) : Bool :=
  match lookupTx m k with
  | some tx_info =>
    if tx_info.state ≠ TxState.Pending then false
    else if receipt.isSome then false
    else
      let config := getChainConfig cfgs k.chain
      let elapsed := now - tx_info.created_at
      if elapsed > (config.tx_timeout_secs : Int) then true
      else if tx_info.retry_count ≥ config.max_retry_count then false
      else false
  | none => false

/-- Embedding of `NonceManager::create_replacement_tx`.  The float bump
`(gas_price as f64 * bump_factor) as u128` is modelled by exact rational
multiplication truncated toward zero (`Int.floor` then `Int.toNat`). -/
def create_replacement_tx (m : PendingTxs) (cfgs : List (String × NonceManagerConfig))
    (k : TxKey) (now : Int) : Except String (Nat × PendingTxs) :=
  match lookupTx m k with
  | some tx_info =>
    let config := getChainConfig cfgs k.chain
    let bump_factor : ℚ := 1 + config.priority_fee_bump_percent / 100
    let new_gas_price : Nat := (⌊(tx_info.gas_price : ℚ) * bump_factor⌋).toNat
    let tx_info2 := { tx_info with
      state := TxState.Replaced
      updated_at := now
      retry_count := tx_info.retry_count + 1 }
    Except.ok (new_gas_price, insertTx m k tx_info2)
  | none => Except.error "no transaction found"

/-- A pending transaction that is 200 s old with `retry_count = 3` (the
default maximum), used to refute claim C2. -/
def c2TxInfo : TxInfo :=
  { hash := 1
    state := TxState.Pending
    nonce := 7
    gas_price := 100
    block_number := none
    created_at := 0
    updated_at := 0
    retry_count := 3 }

/-- Key of the C2 counterexample transaction. -/
def c2Key : TxKey := ⟨"1", 5, 7⟩

/-- A pending transaction with `gas_price = 3`, used to refute claim C3:
with the default 10 % bump the replacement price is `⌊3 · 1.1⌋ = 3`, strictly
below `⌈3 · 1.1⌉ = 4`. -/
def c3TxInfo : TxInfo :=
  { hash := 2
    state := TxState.Pending
    nonce := 9
    gas_price := 3
    block_number := none
    created_at := 0
    updated_at := 0
    retry_count := 0 }

/-- Key of the C3 counterexample transaction. -/
def c3Key : TxKey := ⟨"1", 5, 9⟩

/-! ### Gas oracle (src/rust-core/src/execution/gas_oracle.rs) -/

/-- Embedding of `ChainGasConfig` (the `sources` vector is irrelevant to the
adjustment pipeline and omitted; float fields become ℚ). -/
structure ChainGasConfig where
  chain_id : String
  cache_ttl_seconds : Nat
  base_fee_multiplier : ℚ
  priority_fee_gwei : ℚ
  max_gas_price_gwei : ℚ
  gas_overhead_percentage : ℚ
deriving Repr, DecidableEq

/-- Embedding of `GasData` restricted to the wei-valued fields the adjustment
pipeline reads and writes (`gas_token_price_usd` and `last_updated` pass
through untouched). -/
structure GasData where
  gas_price : Nat
  base_fee : Option Nat
  priority_fee : Option Nat
  recommended_gas_price : Nat
deriving Repr, DecidableEq

/-- Embedding of `GasOracle::apply_config_adjustments`.  Each
`(float) as u128` / `as u64` cast is modelled by `⌊·⌋.toNat` (truncation
toward zero, saturating negatives at zero). -/
def apply_config_adjustments (gas_data : GasData) (config : ChainGasConfig) : GasData :=
  let base_fee_wei : ℚ := ((gas_data.base_fee.getD gas_data.gas_price : Nat) : ℚ)
  let adjusted_fee : Nat := (⌊base_fee_wei * config.base_fee_multiplier⌋).toNat
  let gd1 : GasData := { gas_data with gas_price := adjusted_fee }
  let max_gas_wei : Nat := (⌊config.max_gas_price_gwei * 1000000000⌋).toNat
  let gd2 : GasData :=
    if gd1.gas_price > max_gas_wei then { gd1 with gas_price := max_gas_wei } else gd1
  let priority_fee_wei : Nat :=
    gd2.priority_fee.getD ((⌊config.priority_fee_gwei * 1000000000⌋).toNat)
  let gd3 : GasData := { gd2 with recommended_gas_price := adjusted_fee + priority_fee_wei }
  if config.gas_overhead_percentage > 0 then
    { gd3 with recommended_gas_price :=
        (⌊(((gd3.recommended_gas_price : Nat)) : ℚ) *
            (1 + config.gas_overhead_percentage / 100)⌋).toNat }
  else gd3

/-- Chain configuration used to refute claim C4: multiplier 2, cap 100 gwei,
no priority fee, no overhead. -/
def c4Config : ChainGasConfig :=
  { chain_id := "1"
    cache_ttl_seconds := 15
    base_fee_multiplier := 2
    priority_fee_gwei := 0
    max_gas_price_gwei := 100
    gas_overhead_percentage := 0 }

/-- Fetched gas sample used to refute claim C4: base fee 150 gwei. -/
def c4GasData : GasData :=
  { gas_price := 150000000000
    base_fee := some 150000000000
    priority_fee := some 0
    recommended_gas_price := 150000000000 }

/-! ### RPC health checker (src/rust-mev-engine/src/rpc_health.rs) -/

/-- The successful responses among the per-provider results (`results` holds
one entry per provider; `none` models an `Err` result). -/
def successes {α : Type} (results : List (Option α)) : List α :=
  results.filterMap id

/-- Size of the agreement group of the value `v` (the `response_counts`
entry for `v`; the code groups `Ok` values by equality). -/
def countVal {α : Type} [DecidableEq α] (results : List (Option α)) (v : α) : Nat :=
  (successes results).count v

/-- Embedding of `let required_agreements = (providers.len() * 2 + 2) / 3`. -/
def requiredAgreements (n : Nat) : Nat :=
  (n * 2 + 2) / 3

/-- Embedding of `HealthChecker::check_quorum`, applied to the list of
per-provider results of the read operation: bail out on an empty provider
list; otherwise group the successful responses by equality, take the group
with the most agreements, and return its value iff the group reaches
`required_agreements`. -/
def check_quorum {α : Type} [DecidableEq α] (results : List (Option α)) : Except String α :=
  if results.isEmpty then
    Except.error "No providers available for quorum check"
  else
    match (successes results).dedup.argmax (fun v => countVal results v) with
    | some v =>
      if countVal results v ≥ requiredAgreements results.length then
        Except.ok v
      else
        Except.error "Insufficient quorum"
    | none => Except.error "No successful responses from providers"

/-- Embedding of `CircuitState`. -/
inductive CircuitState where
  | Closed
  | Open
  | HalfOpen
deriving Repr, DecidableEq

/-- Embedding of `CircuitBreaker`.  `Instant`s become `Nat` timestamps in
seconds; `Duration` becomes a `Nat` number of seconds. -/
structure CircuitBreaker where
  failure_count : Nat
  success_count : Nat
  state : CircuitState
  last_state_change : Nat
  failure_threshold : Nat
  success_threshold : Nat
  timeout : Nat
deriving Repr, DecidableEq

/-- Embedding of `CircuitBreaker::new` (thresholds 5 failures / 3 successes,
timeout 60 s); `now` stands for `Instant::now()`. -/
def CircuitBreaker.new (now : Nat) : CircuitBreaker :=
  { failure_count := 0
    success_count := 0
    state := CircuitState.Closed
    last_state_change := now
    failure_threshold := 5
    success_threshold := 3
    timeout := 60 }

/-- Embedding of `CircuitBreaker::record_success`. -/
def record_success (cb : CircuitBreaker) (now : Nat) : CircuitBreaker :=
  match cb.state with
  | CircuitState.HalfOpen =>
    let sc := cb.success_count + 1
    if sc ≥ cb.success_threshold then
      { cb with
        state := CircuitState.Closed
        failure_count := 0
        success_count := 0
        last_state_change := now }
    else
      { cb with success_count := sc }
  | CircuitState.Closed => { cb with failure_count := 0 }
  | CircuitState.Open => cb

/-- Embedding of `CircuitBreaker::record_failure`. -/
def record_failure (cb : CircuitBreaker) (now : Nat) : CircuitBreaker :=
  match cb.state with
  | CircuitState.Closed =>
    let fc := cb.failure_count + 1
    if fc ≥ cb.failure_threshold then
      { cb with
        failure_count := fc
        state := CircuitState.Open
        last_state_change := now }
    else
      { cb with failure_count := fc }
  | CircuitState.HalfOpen =>
    { cb with
      state := CircuitState.Open
      success_count := 0
      last_state_change := now }
  | CircuitState.Open => cb

/-- Embedding of `CircuitBreaker::should_allow_request` (returns the answer
together with the mutated breaker; `elapsed > timeout` is the strict
comparison of the source). -/
def should_allow_request (cb : CircuitBreaker) (now : Nat) : Bool × CircuitBreaker :=
  match cb.state with
  | CircuitState.Closed => (true, cb)
  | CircuitState.Open =>
    if now - cb.last_state_change > cb.timeout then
      (true, { cb with state := CircuitState.HalfOpen, last_state_change := now })
    else
      (false, cb)
  | CircuitState.HalfOpen => (true, cb)

/-- A fresh default breaker (Closed, counters at zero). -/
def cbClosed0 : CircuitBreaker := CircuitBreaker.new 0

/-- A default breaker that is Open since time 0. -/
def cbOpen0 : CircuitBreaker := { CircuitBreaker.new 0 with state := CircuitState.Open }

/-- A default breaker that is HalfOpen (counters at zero, as on every entry
into HalfOpen). -/
def cbHalf0 : CircuitBreaker := { CircuitBreaker.new 0 with state := CircuitState.HalfOpen }

/-! ### Opportunity detector (src/rust-mev-engine/src/opportunity_detector.rs) -/

/-- Embedding of `database::Opportunity` (`metadata` is never read by the
detector and omitted; floats become ℚ, the millisecond timestamp `ts`
becomes `Int`). -/
structure Opportunity where
  id : String
  chain_id : Int
  strategy : String
  dex_in : String
  dex_out : String
  base_token : String
  quote_token : String
  amount_in : String
  est_profit_usd : ℚ
  gas_usd : ℚ
  ts : Int
deriving Repr, DecidableEq

/-- Per-strategy configuration slice read by the profit score
(`config.strategies.<name>.min_roi`). -/
structure StrategyConfig where
  min_roi : ℚ
deriving Repr, DecidableEq

/-- The `config.strategies` table of per-strategy settings. -/
structure StrategiesConfig where
  dex_arb : StrategyConfig
  flash_loan_arb : StrategyConfig
  triangular_arb : StrategyConfig
  cross_chain_arb : StrategyConfig
  liquidation : StrategyConfig
  backrun : StrategyConfig
  jit_liquidity : StrategyConfig
  cex_dex_arb : StrategyConfig
  nft_arb : StrategyConfig
  mev_share : StrategyConfig
  atomic_arb : StrategyConfig
  statistical_arb : StrategyConfig
deriving Repr, DecidableEq

/-- The `config.risk` token lists. -/
structure RiskConfig where
  whitelisted_tokens : List String
  blacklisted_tokens : List String
deriving Repr, DecidableEq

/-- The `config.execution` slice read by the drain step. -/
structure ExecutionConfig where
  max_concurrent_trades : Nat
deriving Repr, DecidableEq

/-- The detector's configuration snapshot (the slices it reads). -/
structure Config where
  strategies : StrategiesConfig
  risk : RiskConfig
  execution : ExecutionConfig
deriving Repr, DecidableEq

/-- The inline strategy `match` of `calculate_profit_score` selecting
`min_roi · 1000` per strategy, `50.0` for sandwich, default `10.0`. -/
def strategyMinProfit (config : Config) (strategy : String) : ℚ :=
  if strategy = "dex-arb" then config.strategies.dex_arb.min_roi * 1000
  else if strategy = "flash-loan-arb" then config.strategies.flash_loan_arb.min_roi * 1000
  else if strategy = "triangular-arb" then config.strategies.triangular_arb.min_roi * 1000
  else if strategy = "cross-chain-arb" then config.strategies.cross_chain_arb.min_roi * 1000
  else if strategy = "liquidation" then config.strategies.liquidation.min_roi * 1000
  else if strategy = "sandwich" then 50
  else if strategy = "backrun" then config.strategies.backrun.min_roi * 1000
  else if strategy = "jit-liquidity" then config.strategies.jit_liquidity.min_roi * 1000
  else if strategy = "cex-dex-arb" then config.strategies.cex_dex_arb.min_roi * 1000
  else if strategy = "nft-arb" then config.strategies.nft_arb.min_roi * 1000
  else if strategy = "mev-share" then config.strategies.mev_share.min_roi * 1000
  else if strategy = "atomic-arb" then config.strategies.atomic_arb.min_roi * 1000
  else if strategy = "statistical-arb" then config.strategies.statistical_arb.min_roi * 1000
  else 10

/-- Embedding of `OpportunityDetector::calculate_profit_score`. -/
def calculate_profit_score (config : Config) (opp : Opportunity) : ℚ :=
  let min_profit := strategyMinProfit config opp.strategy
  let net_profit := opp.est_profit_usd - opp.gas_usd
  if net_profit ≤ 0 then 0
  else min (min (net_profit / min_profit) 5 * 20) 100

/-- Embedding of `OpportunityDetector::calculate_risk_score`: sequential
deductions for gas and strategy, whitelist bonuses, then the blacklist
check (which returns 0 outright), then the `[0, 100]` clamp. -/
def calculate_risk_score (config : Config) (opp : Opportunity) : ℚ :=
  let r0 : ℚ := 100
  let r1 := if opp.gas_usd > 100 then r0 - 20 else if opp.gas_usd > 50 then r0 - 10 else r0
  let r2 :=
    if opp.strategy = "sandwich" then r1 - 30
    else if opp.strategy = "cross-chain-arb" then r1 - 20
    else if opp.strategy = "liquidation" then r1 - 15
    else if opp.strategy = "nft-arb" then r1 - 25
    else r1
  let r3 := if opp.base_token ∈ config.risk.whitelisted_tokens then r2 + 10 else r2
  let r4 := if opp.quote_token ∈ config.risk.whitelisted_tokens then r3 + 10 else r3
  if opp.base_token ∈ config.risk.blacklisted_tokens ∨
      opp.quote_token ∈ config.risk.blacklisted_tokens then 0
  else min (max r4 0) 100

/-- Embedding of `OpportunityDetector::calculate_gas_efficiency_score`. -/
def calculate_gas_efficiency_score (opp : Opportunity) : ℚ :=
  let profit_to_gas_ratio := opp.est_profit_usd / max opp.gas_usd 1
  if profit_to_gas_ratio > 10 then 100
  else if profit_to_gas_ratio > 5 then 80
  else if profit_to_gas_ratio > 3 then 60
  else if profit_to_gas_ratio > 2 then 40
  else if profit_to_gas_ratio > 1.5 then 20
  else 0

/-- Embedding of `OpportunityDetector::calculate_timing_score`; `now` is
`Utc::now().timestamp_millis()` and the age is `now - opp.ts` in ms. -/
def calculate_timing_score (now : Int) (opp : Opportunity) : ℚ :=
  let age_ms := now - opp.ts
  if age_ms < 100 then 100
  else if age_ms < 500 then 80
  else if age_ms < 1000 then 60
  else if age_ms < 5000 then 40
  else if age_ms < 10000 then 20
  else 0

/-- Embedding of `OpportunityScore`. -/
structure OpportunityScore where
  opportunity_id : String
  total_score : ℚ
  profit_score : ℚ
  risk_score : ℚ
  gas_efficiency_score : ℚ
  timing_score : ℚ
deriving Repr, DecidableEq

/-- Embedding of `OpportunityDetector::calculate_opportunity_score` with the
weighted total `0.4·profit + 0.3·risk + 0.2·gas + 0.1·timing`. -/
def calculate_opportunity_score (config : Config) (opp : Opportunity) (now : Int) :
    OpportunityScore :=
  let profit_score := calculate_profit_score config opp
  let risk_score := calculate_risk_score config opp
  let gas_efficiency_score := calculate_gas_efficiency_score opp
  let timing_score := calculate_timing_score now opp
  let total_score := profit_score * 0.4 + risk_score * 0.3 +
    gas_efficiency_score * 0.2 + timing_score * 0.1
  { opportunity_id := opp.id
    total_score := total_score
    profit_score := profit_score
    risk_score := risk_score
    gas_efficiency_score := gas_efficiency_score
    timing_score := timing_score }

/-- Truncation toward zero of a rational (the rounding of a float-to-int
`as` cast). -/
def truncTowardZero (q : ℚ) : Int :=
  if q < 0 then -⌊-q⌋ else ⌊q⌋

/-- Rust `f64 as i32`: truncation toward zero, saturating at the `i32`
bounds. -/
def f64AsI32 (q : ℚ) : Int :=
  max (-2147483648) (min 2147483647 (truncTowardZero q))

/-- The queue priority computed in `process_opportunities`:
`(score.total_score * 1000.0) as i32`. -/
def priorityOf (score : OpportunityScore) : Int :=
  f64AsI32 (score.total_score * 1000)

/-- Embedding of the drain loop of
`OpportunityDetector::execute_top_opportunities`: the queue is given in pop
order (descending priority, as popped from the max-heap), the bound is
`config.execution.max_concurrent_trades`, and `mark_opportunity_pending` is
modelled as always succeeding.  The loop stops at the bound, on an empty
queue, or at the first popped priority `≤ 0`. -/
def execute_top_opportunities : List (String × Int) → Nat → List String
  | _, 0 => []
  | [], _ + 1 => []
  | (opportunity_id, priority) :: rest, n + 1 =>
    if priority ≤ 0 then []
    else opportunity_id :: execute_top_opportunities rest n

/-- Strategy table used in the C7 and C10 scenarios (1 % minimum ROI
everywhere). -/
def cStrategies : StrategiesConfig :=
  { dex_arb := ⟨1/100⟩
    flash_loan_arb := ⟨1/100⟩
    triangular_arb := ⟨1/100⟩
    cross_chain_arb := ⟨1/100⟩
    liquidation := ⟨1/100⟩
    backrun := ⟨1/100⟩
    jit_liquidity := ⟨1/100⟩
    cex_dex_arb := ⟨1/100⟩
    nft_arb := ⟨1/100⟩
    mev_share := ⟨1/100⟩
    atomic_arb := ⟨1/100⟩
    statistical_arb := ⟨1/100⟩ }

/-- Configuration of the C7 counterexample: empty token lists, at most 5
concurrent trades. -/
def c7Config : Config :=
  { strategies := cStrategies
    risk := { whitelisted_tokens := [], blacklisted_tokens := [] }
    execution := { max_concurrent_trades := 5 } }

/-- Opportunity of the C7 counterexample: a profitable sandwich created at
`ts = 0`, scored at `now = 20000` ms, hence timing score 0. -/
def c7Opp : Opportunity :=
  { id := "opp-c7"
    chain_id := 1
    strategy := "sandwich"
    dex_in := "uniswap_v2"
    dex_out := "sushiswap"
    base_token := "0xA"
    quote_token := "0xB"
    amount_in := "1000"
    est_profit_usd := 300
    gas_usd := 1
    ts := 0 }

/-- Configuration of the C10 witness: the token `0xT` is both whitelisted
and blacklisted. -/
def c10Config : Config :=
  { strategies := cStrategies
    risk := { whitelisted_tokens := ["0xT"], blacklisted_tokens := ["0xT"] }
    execution := { max_concurrent_trades := 5 } }

/-- Opportunity of the C10 witness: its base token `0xT` is blacklisted
(and also whitelisted). -/
def c10Opp : Opportunity :=
  { id := "opp-c10"
    chain_id := 1
    strategy := "dex-arb"
    dex_in := "uniswap_v2"
    dex_out := "sushiswap"
    base_token := "0xT"
    quote_token := "0xU"
    amount_in := "1000"
    est_profit_usd := 10
    gas_usd := 1
    ts := 0 }

/-- An out-of-range profitability configuration
(`max_slippage_bps = 20000 > 10_000`), used for claim C9. -/
def c9BadConfig : ProfitabilityConfig :=
  { min_ev_usd := 5
    haircut_percentage := 10
    max_slippage_bps := 20000
    max_gas_usd := 30
    max_flash_fee_bps := 30
    max_builder_tip_usd := 1/2 }

end ArbX

/-- Looking up the key just inserted returns the inserted value
(`HashMap::insert` followed by `HashMap::get`). -/
theorem lookupTx_insertTx (m : ArbX.PendingTxs) (k : ArbX.TxKey) (v : ArbX.TxInfo) :
    ArbX.lookupTx (ArbX.insertTx m k v) k = some v := by
  simp [ArbX.lookupTx, ArbX.insertTx, List.find?_cons_of_pos]

/-- Looking up a key that was just removed returns nothing. -/
theorem lookupTx_removeTx (m : ArbX.PendingTxs) (k : ArbX.TxKey) :
    ArbX.lookupTx (ArbX.removeTx m k) k = none := by
  rw [ArbX.lookupTx, Option.map_eq_none', List.find?_eq_none]
  intro p hp
  have hne := (List.mem_filter.mp hp).2
  simpa using hne

/-- Claim C2 counterexample: a pending transaction 200 s old (beyond the
default 180 s timeout), with no receipt but `retry_count = 3 = max_retry_count`
(so the claimed precondition `retry_count < max_retry_count` fails), is still
reported as needing replacement. -/
theorem c2_counterexample :
    ArbX.should_replace_tx [(ArbX.c2Key, ArbX.c2TxInfo)] [] ArbX.c2Key none 200 = true ∧
    ¬ ArbX.c2TxInfo.retry_count <
        (ArbX.getChainConfig [] ArbX.c2Key.chain).max_retry_count := by
  constructor
  · rfl
  · decide

/-- Claim C2 amended: `should_replace_tx` returns `true` iff the transaction
is known, in state `Pending`, the receipt query returns nothing, and its age
since `created_at` exceeds `tx_timeout_secs` (default 180 s).  The
`retry_count < max_retry_count` condition does not constrain the positive
answer: the timeout branch returns `true` before the retry count is
consulted, and both branches after it return `false`. -/
theorem c2_amended_replacement_policy
    (m : ArbX.PendingTxs) (cfgs : List (String × ArbX.NonceManagerConfig))
    (k : ArbX.TxKey) (receipt : Option Nat) (now : Int) :
    ArbX.should_replace_tx m cfgs k receipt now = true ↔
      ∃ tx_info, ArbX.lookupTx m k = some tx_info ∧
        tx_info.state = ArbX.TxState.Pending ∧
        receipt = none ∧
        now - tx_info.created_at > ((ArbX.getChainConfig cfgs k.chain).tx_timeout_secs : Int) := by
  constructor
  · intro htrue
    unfold ArbX.should_replace_tx at htrue
    rcases h : ArbX.lookupTx m k with _ | tx_info
    · rw [h] at htrue
      simp at htrue
    · rw [h] at htrue
      refine ⟨tx_info, rfl, ?_⟩
      by_cases hs : tx_info.state = ArbX.TxState.Pending
      · by_cases hr : receipt = none
        · by_cases ht : now - tx_info.created_at >
              ((ArbX.getChainConfig cfgs k.chain).tx_timeout_secs : Int)
          · exact ⟨hs, hr, ht⟩
          · exfalso
            simp [hs, hr, ht, ite_self] at htrue
        · exfalso
          rw [← Option.not_isSome_iff_eq_none, not_not] at hr
          simp [hs, hr] at htrue
      · simp [hs] at htrue
  · rintro ⟨tx_info, h, hs, hr, ht⟩
    unfold ArbX.should_replace_tx
    rw [h]
    simp [hs, hr, ht]


/-- Claim C1: the profitability guard computes
`net_ev = raw_ev - gas - flash_fee - slippage - tip - haircut` with
`slippage = raw_ev * bps/10000` and `haircut = raw_ev * pct/100`, reports
profitable iff `net_ev ≥ min_ev_usd`, and on scenario S1
(raw_ev 100, gas 10, flash fee 2, tip 0.5, 20 bps, 10 % haircut, min 5)
returns `net_ev = 77.3` and profitable. -/
theorem c1_profitability_formula :
    (∀ (cfg : ArbX.ProfitabilityConfig) (opp : ArbX.ArbitrageOpportunity)
        (gas flash tip : ℚ),
      (ArbX.is_profitable cfg opp gas flash tip).2 =
        opp.expected_value_usd - gas - flash
          - opp.expected_value_usd * ((cfg.max_slippage_bps : ℚ) / 10000)
          - tip - opp.expected_value_usd * (cfg.haircut_percentage / 100) ∧
      ((ArbX.is_profitable cfg opp gas flash tip).1 = true ↔
        cfg.min_ev_usd ≤ (ArbX.is_profitable cfg opp gas flash tip).2)) ∧
    ArbX.is_profitable ArbX.s1Config ArbX.s1Opportunity 10 2 (1/2) = (true, 773/10) := by
  refine ⟨fun cfg opp gas flash tip => ⟨rfl, ?_⟩, ?_⟩
  · simp [ArbX.is_profitable]
  · simp only [ArbX.is_profitable, ArbX.s1Config, ArbX.s1Opportunity, Prod.mk.injEq,
      decide_eq_true_eq]
    norm_num

/-- Claim C3 counterexample: replacing a pending transaction whose gas price
is 3 under the default 10 % bump yields gas price 3 (the float product is
truncated by the `as u128` cast), strictly below
`ceil(old_gas_price · (1 + bump/100)) = 4`, so the claimed lower bound fails. -/
theorem c3_counterexample :
    (ArbX.create_replacement_tx [(ArbX.c3Key, ArbX.c3TxInfo)] [] ArbX.c3Key 300).map Prod.fst =
      Except.ok 3 ∧
    ¬ ((3 : ℤ) ≥ ⌈(ArbX.c3TxInfo.gas_price : ℚ) *
        (1 + (ArbX.getChainConfig [] ArbX.c3Key.chain).priority_fee_bump_percent / 100)⌉) := by
  have h1 : (ArbX.c3TxInfo.gas_price : ℚ) *
      (1 + (ArbX.getChainConfig [] ArbX.c3Key.chain).priority_fee_bump_percent / 100) =
      33 / 10 := by
    norm_num [ArbX.c3TxInfo, ArbX.getChainConfig, ArbX.defaultNonceConfig]
  constructor
  · unfold ArbX.create_replacement_tx
    rw [show ArbX.lookupTx [(ArbX.c3Key, ArbX.c3TxInfo)] ArbX.c3Key = some ArbX.c3TxInfo from rfl]
    simp only [Except.map, h1]
    norm_num
    rfl
  · rw [h1]
    have hceil : ⌈(33 : ℚ) / 10⌉ = 4 := by
      rw [Int.ceil_eq_iff]
      constructor
      · norm_num
      · norm_num
    omega

/-- Claim C3 amended: for every replacement built by the nonce manager, the
returned gas price equals `old_gas_price · (1 + bump/100)` truncated
DOWNWARD (`⌊·⌋`, the behaviour of the `as u128` cast), not rounded up; the
replaced entry keeps the same nonce, its state transitions to `Replaced`,
and its retry count is incremented. -/
theorem c3_amended_replacement_truncates
    (m : ArbX.PendingTxs) (cfgs : List (String × ArbX.NonceManagerConfig))
    (k : ArbX.TxKey) (now : Int) (tx_info : ArbX.TxInfo)
    (h : ArbX.lookupTx m k = some tx_info) :
    ∃ m', ArbX.create_replacement_tx m cfgs k now =
        Except.ok
          ((⌊(tx_info.gas_price : ℚ) *
              (1 + (ArbX.getChainConfig cfgs k.chain).priority_fee_bump_percent / 100)⌋).toNat,
            m') ∧
      ∃ tx_info', ArbX.lookupTx m' k = some tx_info' ∧
        tx_info'.nonce = tx_info.nonce ∧
        tx_info'.state = ArbX.TxState.Replaced ∧
        tx_info'.retry_count = tx_info.retry_count + 1 := by
  refine ⟨ArbX.insertTx m k
      { tx_info with
        state := ArbX.TxState.Replaced
        updated_at := now
        retry_count := tx_info.retry_count + 1 }, ?_, ?_⟩
  · unfold ArbX.create_replacement_tx
    rw [h]
  · exact ⟨_, lookupTx_insertTx m k _, rfl, rfl, rfl⟩

/-- Witness for the amended claim C3 at a concrete pending transaction. -/
theorem c3_amended_replacement_truncates_witness :
    ∃ m', ArbX.create_replacement_tx [(ArbX.c3Key, ArbX.c3TxInfo)] [] ArbX.c3Key 300 =
        Except.ok
          ((⌊(ArbX.c3TxInfo.gas_price : ℚ) *
              (1 + (ArbX.getChainConfig [] ArbX.c3Key.chain).priority_fee_bump_percent / 100)⌋).toNat,
            m') ∧
      ∃ tx_info', ArbX.lookupTx m' ArbX.c3Key = some tx_info' ∧
        tx_info'.nonce = ArbX.c3TxInfo.nonce ∧
        tx_info'.state = ArbX.TxState.Replaced ∧
        tx_info'.retry_count = ArbX.c3TxInfo.retry_count + 1 :=
  c3_amended_replacement_truncates [(ArbX.c3Key, ArbX.c3TxInfo)] [] ArbX.c3Key 300
    ArbX.c3TxInfo rfl

/-- Claim C8 counterexample: register a transaction, observe `Mined` (which
succeeds and, through `cleanup_tx`, removes the entry), then observe `Mined`
again: the second observation returns an error instead of succeeding with
an unchanged result as the claim states. -/
theorem c8_counterexample :
    ArbX.update_tx_state (ArbX.register_tx [] "1" 5 42 7 100 0)
        ⟨"1", 5, 7⟩ ArbX.TxState.Mined (some 1000) 1 = Except.ok [] ∧
    ArbX.update_tx_state [] ⟨"1", 5, 7⟩ ArbX.TxState.Mined (some 1000) 2 =
      Except.error "no transaction found" := by
  constructor
  · rfl
  · rfl

/-- Claim C8 amended: observing `Mined` is NOT idempotent in the result.  A
first successful `Mined` update removes the entry (via `cleanup_tx`), so the
updated map no longer contains the key and a second `Mined` update for the
same `(chain, wallet, nonce)` fails with the not-found error (the map it
would return is unchanged, but the result is an error, not a success). -/
theorem c8_amended_mined_not_idempotent
    (m m' : ArbX.PendingTxs) (k : ArbX.TxKey) (bn bn2 : Option Nat) (now now2 : Int)
    (h : ArbX.update_tx_state m k ArbX.TxState.Mined bn now = Except.ok m') :
    ArbX.lookupTx m' k = none ∧
    ArbX.update_tx_state m' k ArbX.TxState.Mined bn2 now2 =
      Except.error "no transaction found" := by
  unfold ArbX.update_tx_state at h
  rcases hl : ArbX.lookupTx m k with _ | info
  · rw [hl] at h
    cases h
  · rw [hl] at h
    simp only [reduceIte, true_or, if_true] at h
    cases h
    have hnone : ArbX.lookupTx (ArbX.cleanup_tx (ArbX.insertTx m k
        { info with state := ArbX.TxState.Mined, updated_at := now, block_number := bn }) k) k =
        none := lookupTx_removeTx _ k
    refine ⟨hnone, ?_⟩
    unfold ArbX.update_tx_state
    rw [hnone]

/-- Witness for the amended claim C8 at a concrete registered transaction. -/
theorem c8_amended_mined_not_idempotent_witness :
    ArbX.lookupTx [] (⟨"1", 5, 7⟩ : ArbX.TxKey) = none ∧
    ArbX.update_tx_state [] ⟨"1", 5, 7⟩ ArbX.TxState.Mined (some 1000) 2 =
      Except.error "no transaction found" :=
  c8_amended_mined_not_idempotent (ArbX.register_tx [] "1" 5 42 7 100 0) []
    ⟨"1", 5, 7⟩ (some 1000) (some 1000) 1 2 rfl

/-- Claim C4 counterexample: with base fee 150 gwei, multiplier 2 and a
100 gwei cap (priority fee 0, overhead 0), the pipeline returns a
recommended price of 300 gwei, while the claimed formula
`min(max_cap, base_fee · multiplier) + priority_fee` gives 100 gwei: the cap
is applied only to the `gas_price` field, and the recommended price's
base-fee component exceeds the configured cap. -/
theorem c4_counterexample :
    (ArbX.apply_config_adjustments ArbX.c4GasData ArbX.c4Config).recommended_gas_price =
      300000000000 ∧
    min ((⌊ArbX.c4Config.max_gas_price_gwei * 1000000000⌋).toNat)
        ((⌊((ArbX.c4GasData.base_fee.getD ArbX.c4GasData.gas_price : Nat) : ℚ) *
            ArbX.c4Config.base_fee_multiplier⌋).toNat) + 0 = 100000000000 ∧
    (300000000000 : Nat) ≠ 100000000000 := by
  refine ⟨?_, ?_, by norm_num⟩
  · show (ArbX.apply_config_adjustments ArbX.c4GasData ArbX.c4Config).recommended_gas_price =
      300000000000
    norm_num [ArbX.apply_config_adjustments, ArbX.c4GasData, ArbX.c4Config]
    rfl
  · norm_num [ArbX.c4GasData, ArbX.c4Config]
    rfl

/-- Claim C4 amended: for every chain configuration and fetched sample, the
max cap is applied only to the `gas_price` field
(`gas_price = min(base_fee · multiplier (truncated), max_cap)`), while the
recommended price is computed from the UNCAPPED adjusted fee:
`recommended = (base_fee · multiplier (truncated)) + priority_fee`, then
multiplied by `(1 + gas_overhead_percentage/100)` (truncated) when the
overhead is positive.  The base-fee component of the recommended price may
therefore exceed the configured max cap. -/
theorem c4_amended_cap_only_on_gas_price
    (gd : ArbX.GasData) (cfg : ArbX.ChainGasConfig) :
    (ArbX.apply_config_adjustments gd cfg).gas_price =
      min ((⌊((gd.base_fee.getD gd.gas_price : Nat) : ℚ) * cfg.base_fee_multiplier⌋).toNat)
          ((⌊cfg.max_gas_price_gwei * 1000000000⌋).toNat) ∧
    (ArbX.apply_config_adjustments gd cfg).recommended_gas_price =
      (if 0 < cfg.gas_overhead_percentage then
        (⌊((((⌊((gd.base_fee.getD gd.gas_price : Nat) : ℚ) * cfg.base_fee_multiplier⌋).toNat +
              gd.priority_fee.getD ((⌊cfg.priority_fee_gwei * 1000000000⌋).toNat) : Nat)) : ℚ) *
            (1 + cfg.gas_overhead_percentage / 100)⌋).toNat
      else
        (⌊((gd.base_fee.getD gd.gas_price : Nat) : ℚ) * cfg.base_fee_multiplier⌋).toNat +
          gd.priority_fee.getD ((⌊cfg.priority_fee_gwei * 1000000000⌋).toNat)) := by
  unfold ArbX.apply_config_adjustments
  by_cases hcap : (⌊((gd.base_fee.getD gd.gas_price : Nat) : ℚ) * cfg.base_fee_multiplier⌋).toNat >
      (⌊cfg.max_gas_price_gwei * 1000000000⌋).toNat
  · have hmin := Nat.min_eq_right (Nat.le_of_lt hcap)
    by_cases hoh : (0 : ℚ) < cfg.gas_overhead_percentage
    · simp [hcap, hoh, hmin]
    · simp [hcap, hoh, hmin]
  · have hmin := Nat.min_eq_left (Nat.not_lt.mp hcap)
    by_cases hoh : (0 : ℚ) < cfg.gas_overhead_percentage
    · simp [hcap, hoh, hmin]
    · simp [hcap, hoh, hmin]

/-- A successful quorum answer reaches the required number of agreements and
belongs to a largest agreement group. -/
theorem check_quorum_ok_spec {α : Type} [DecidableEq α] (results : List (Option α)) (v : α)
    (hok : ArbX.check_quorum results = Except.ok v) :
    v ∈ ArbX.successes results ∧
    ArbX.requiredAgreements results.length ≤ ArbX.countVal results v ∧
    ∀ w, ArbX.countVal results w ≤ ArbX.countVal results v := by
  unfold ArbX.check_quorum at hok
  by_cases hemp : results.isEmpty
  · rw [if_pos hemp] at hok
    cases hok
  · rw [if_neg hemp] at hok
    rcases harg : (ArbX.successes results).dedup.argmax (fun w => ArbX.countVal results w)
        with _ | m
    · rw [harg] at hok
      cases hok
    · simp only [harg, ge_iff_le] at hok
      by_cases hreq : ArbX.requiredAgreements results.length ≤ ArbX.countVal results m
      · rw [if_pos hreq] at hok
        cases hok
        have hmem : v ∈ (ArbX.successes results).dedup :=
          List.argmax_mem (Option.mem_def.mpr harg)
        refine ⟨List.mem_dedup.mp hmem, hreq, ?_⟩
        intro w
        by_cases hw : w ∈ ArbX.successes results
        · exact List.le_of_mem_argmax (List.mem_dedup.mpr hw) (Option.mem_def.mpr harg)
        · rw [ArbX.countVal, List.count_eq_zero_of_not_mem hw]
          exact Nat.zero_le _
      · rw [if_neg hreq] at hok
        cases hok

/-- Claim C5: for a non-empty list of providers, the quorum read groups the
successful results by equality and returns the value of a largest group iff
that group's size reaches `required_agreements = (2n + 2) / 3`, which is the
least `k` with `3k ≥ 2n`, i.e. `⌈2n/3⌉`; with three providers answering
100, 100, 99 it returns 100, and with 100, 99, 98 it fails. -/
theorem c5_quorum_two_thirds (results : List (Option Nat)) (hne : results ≠ []) :
    (∀ v, ArbX.check_quorum results = Except.ok v →
        ArbX.requiredAgreements results.length ≤ ArbX.countVal results v ∧
        ∀ w, ArbX.countVal results w ≤ ArbX.countVal results v) ∧
    ((∃ v, v ∈ ArbX.successes results ∧
        ArbX.requiredAgreements results.length ≤ ArbX.countVal results v) →
      ∃ v, ArbX.check_quorum results = Except.ok v ∧
        ArbX.requiredAgreements results.length ≤ ArbX.countVal results v) ∧
    (2 * results.length ≤ 3 * ArbX.requiredAgreements results.length ∧
      ∀ k, 2 * results.length ≤ 3 * k → ArbX.requiredAgreements results.length ≤ k) ∧
    ArbX.check_quorum [some 100, some 100, some 99] = Except.ok 100 ∧
    ArbX.check_quorum ([some 100, some 99, some 98] : List (Option Nat)) =
      Except.error "Insufficient quorum" := by
  refine ⟨?_, ?_, ?_, rfl, rfl⟩
  · intro v hok
    exact (check_quorum_ok_spec results v hok).2
  · rintro ⟨v, hv, hcnt⟩
    have hvd : v ∈ (ArbX.successes results).dedup := List.mem_dedup.mpr hv
    unfold ArbX.check_quorum
    rw [if_neg (by simpa [List.isEmpty_iff] using hne)]
    rcases harg : (ArbX.successes results).dedup.argmax
        (fun w => ArbX.countVal results w) with _ | m
    · rw [List.argmax_eq_none] at harg
      rw [harg] at hvd
      cases hvd
    · have hm : ArbX.countVal results v ≤ ArbX.countVal results m :=
        List.le_of_mem_argmax hvd (Option.mem_def.mpr harg)
      exact ⟨m, by simp [harg, ge_iff_le, le_trans hcnt hm], le_trans hcnt hm⟩
  · constructor
    · unfold ArbX.requiredAgreements
      omega
    · intro k hk
      unfold ArbX.requiredAgreements
      omega

/-- Witness for claim C5 on the concrete three-provider scenario S6. -/
theorem c5_quorum_two_thirds_witness :
    ArbX.check_quorum [some 100, some 100, some 99] = Except.ok 100 ∧
    ArbX.check_quorum ([some 100, some 99, some 98] : List (Option Nat)) =
      Except.error "Insufficient quorum" :=
  ⟨(c5_quorum_two_thirds [some 100, some 100, some 99] (by simp)).2.2.2.1,
   (c5_quorum_two_thirds [some 100, some 99, some 98] (by simp)).2.2.2.2⟩

/-- Claim C6: per-endpoint circuit breaker state machine with the default
thresholds (5 failures, 3 successes, 60 s): from a fresh Closed state five
consecutive recorded failures open the breaker; while Open it admits no
request until more than 60 s have elapsed since the transition, after which
the next admission check moves it to HalfOpen (and admits the request); in
HalfOpen three consecutive successes close it, and any single failure
re-opens it with the timer reset to the failure time. -/
theorem c6_circuit_breaker_state_machine (cb : ArbX.CircuitBreaker)
    (hft : cb.failure_threshold = 5) (hst : cb.success_threshold = 3)
    (hto : cb.timeout = 60) :
    (cb.state = ArbX.CircuitState.Closed → cb.failure_count = 0 →
      ∀ t1 t2 t3 t4 t5 : Nat,
        (ArbX.record_failure (ArbX.record_failure (ArbX.record_failure
          (ArbX.record_failure (ArbX.record_failure cb t1) t2) t3) t4) t5).state =
          ArbX.CircuitState.Open) ∧
    (cb.state = ArbX.CircuitState.Open → ∀ now, now - cb.last_state_change ≤ 60 →
      ArbX.should_allow_request cb now = (false, cb)) ∧
    (cb.state = ArbX.CircuitState.Open → ∀ now, now - cb.last_state_change > 60 →
      ArbX.should_allow_request cb now =
        (true, { cb with state := ArbX.CircuitState.HalfOpen, last_state_change := now })) ∧
    (cb.state = ArbX.CircuitState.HalfOpen → cb.success_count = 0 →
      ∀ t1 t2 t3 : Nat,
        (ArbX.record_success (ArbX.record_success (ArbX.record_success cb t1) t2) t3).state =
          ArbX.CircuitState.Closed) ∧
    (cb.state = ArbX.CircuitState.HalfOpen → ∀ now,
      (ArbX.record_failure cb now).state = ArbX.CircuitState.Open ∧
      (ArbX.record_failure cb now).last_state_change = now) := by
  obtain ⟨fc, sc, st, lsc, ft, stt, tmo⟩ := cb
  simp only at hft hst hto
  subst hft hst hto
  refine ⟨?_, ?_, ?_, ?_, ?_⟩
  · intro hs hf t1 t2 t3 t4 t5
    simp only at hs hf
    subst hs hf
    simp [ArbX.record_failure]
  · intro hs now hnow
    simp only at hs
    subst hs
    simp only at hnow
    simp only [ArbX.should_allow_request, gt_iff_lt]
    rw [if_neg (by omega)]
  · intro hs now hnow
    simp only at hs
    subst hs
    simp only at hnow
    simp only [ArbX.should_allow_request, gt_iff_lt]
    rw [if_pos (by omega)]
  · intro hs hsc t1 t2 t3
    simp only at hs hsc
    subst hs hsc
    simp [ArbX.record_success]
  · intro hs now
    simp only at hs
    subst hs
    simp [ArbX.record_failure]

/-- Witness for claim C6 on concrete default breakers: five failures open a
fresh breaker; an Open breaker blocks at 60 s and half-opens at 61 s; three
successes close a HalfOpen breaker; one failure re-opens it at the failure
time. -/
theorem c6_circuit_breaker_state_machine_witness :
    (ArbX.record_failure (ArbX.record_failure (ArbX.record_failure
      (ArbX.record_failure (ArbX.record_failure ArbX.cbClosed0 1) 2) 3) 4) 5).state =
      ArbX.CircuitState.Open ∧
    ArbX.should_allow_request ArbX.cbOpen0 60 = (false, ArbX.cbOpen0) ∧
    ArbX.should_allow_request ArbX.cbOpen0 61 =
      (true, { ArbX.cbOpen0 with
        state := ArbX.CircuitState.HalfOpen, last_state_change := 61 }) ∧
    (ArbX.record_success (ArbX.record_success (ArbX.record_success ArbX.cbHalf0 7) 8) 9).state =
      ArbX.CircuitState.Closed ∧
    (ArbX.record_failure ArbX.cbHalf0 9).state = ArbX.CircuitState.Open ∧
    (ArbX.record_failure ArbX.cbHalf0 9).last_state_change = 9 := by
  have h1 := c6_circuit_breaker_state_machine ArbX.cbClosed0 rfl rfl rfl
  have h2 := c6_circuit_breaker_state_machine ArbX.cbOpen0 rfl rfl rfl
  have h3 := c6_circuit_breaker_state_machine ArbX.cbHalf0 rfl rfl rfl
  exact ⟨h1.1 rfl rfl 1 2 3 4 5,
    h2.2.1 rfl 60 (by decide),
    h2.2.2.1 rfl 61 (by decide),
    h3.2.2.2.1 rfl rfl 7 8 9,
    (h3.2.2.2.2 rfl 9).1,
    (h3.2.2.2.2 rfl 9).2⟩

/-- Claim C7 counterexample: the opportunity `c7Opp`, scored at age
20 000 ms, has timing score 0 yet is emitted by the drain step, because its
queue priority `⌊total · 1000⌋ = 81000` (driven by the other three score
components) is positive: the drain never consults the timing score. -/
theorem c7_counterexample :
    (ArbX.calculate_opportunity_score ArbX.c7Config ArbX.c7Opp 20000).timing_score = 0 ∧
    ArbX.execute_top_opportunities
      [(ArbX.c7Opp.id,
        ArbX.priorityOf (ArbX.calculate_opportunity_score ArbX.c7Config ArbX.c7Opp 20000))] 5 =
      [ArbX.c7Opp.id] := by
  have hmp : ArbX.strategyMinProfit ArbX.c7Config "sandwich" = 50 := by rfl
  have hprofit : ArbX.calculate_profit_score ArbX.c7Config ArbX.c7Opp = 100 := by
    simp only [ArbX.calculate_profit_score, ArbX.c7Opp, hmp]
    norm_num [min_def]
  have hrisk : ArbX.calculate_risk_score ArbX.c7Config ArbX.c7Opp = 70 := by
    simp only [ArbX.calculate_risk_score, ArbX.c7Config, ArbX.c7Opp]
    norm_num [min_def, max_def]
  have hgas : ArbX.calculate_gas_efficiency_score ArbX.c7Opp = 100 := by
    simp only [ArbX.calculate_gas_efficiency_score, ArbX.c7Opp]
    norm_num [max_def]
  have htiming : ArbX.calculate_timing_score 20000 ArbX.c7Opp = 0 := by
    simp only [ArbX.calculate_timing_score, ArbX.c7Opp]
    norm_num
  have hts : (ArbX.calculate_opportunity_score ArbX.c7Config ArbX.c7Opp 20000).total_score =
      81 := by
    simp only [ArbX.calculate_opportunity_score]
    rw [hprofit, hrisk, hgas, htiming]
    norm_num
  have hp : ArbX.priorityOf (ArbX.calculate_opportunity_score ArbX.c7Config ArbX.c7Opp 20000) =
      81000 := by
    norm_num [ArbX.priorityOf, ArbX.f64AsI32, ArbX.truncTowardZero, hts, min_def, max_def]
  constructor
  · norm_num [ArbX.calculate_opportunity_score, ArbX.calculate_timing_score, ArbX.c7Opp]
  · rw [hp]
    norm_num [ArbX.execute_top_opportunities]

/-- Claim C7 amended: the drain step emits exactly the longest prefix of
positive-priority queue entries, cut to `max_concurrent_trades` (it stops at
the first popped priority `≤ 0`); an opportunity with timing score 0 (age
≥ 10 000 ms) is dropped only when its total priority is `≤ 0`, not
unconditionally — the drain never consults the timing score itself. -/
theorem c7_amended_drain_positive_priority :
    (∀ (queue : List (String × Int)) (max_concurrent : Nat),
      ArbX.execute_top_opportunities queue max_concurrent =
        ((queue.takeWhile fun e => 0 < e.2).take max_concurrent).map Prod.fst) ∧
    (∀ (now : Int) (opp : ArbX.Opportunity), 10000 ≤ now - opp.ts →
      ArbX.calculate_timing_score now opp = 0) := by
  constructor
  · intro queue
    induction queue with
    | nil =>
      intro n
      cases n <;> simp [ArbX.execute_top_opportunities]
    | cons e rest ih =>
      intro n
      obtain ⟨id, p⟩ := e
      cases n with
      | zero => simp [ArbX.execute_top_opportunities]
      | succ n =>
        by_cases hp : p ≤ 0
        · simp [ArbX.execute_top_opportunities, hp, List.takeWhile_cons,
            show ¬ ((0 : Int) < p) by omega]
        · simp [ArbX.execute_top_opportunities, hp, List.takeWhile_cons,
            show (0 : Int) < p by omega, ih]
  · intro now opp hage
    unfold ArbX.calculate_timing_score
    rw [if_neg (by omega), if_neg (by omega), if_neg (by omega), if_neg (by omega),
      if_neg (by omega)]

/-- Witness for the amended claim C7: a three-entry queue is drained down to
the prefix before the first non-positive priority, and the aged `c7Opp`
indeed has timing score 0. -/
theorem c7_amended_drain_positive_priority_witness :
    ArbX.execute_top_opportunities [("a", 2), ("b", 0), ("c", 5)] 5 = ["a"] ∧
    ArbX.calculate_timing_score 20000 ArbX.c7Opp = 0 := by
  constructor
  · rw [c7_amended_drain_positive_priority.1 [("a", 2), ("b", 0), ("c", 5)] 5]
    rfl
  · exact c7_amended_drain_positive_priority.2 20000 ArbX.c7Opp (by norm_num [ArbX.c7Opp])

/-- Claim C10: the blacklist check of `calculate_risk_score` runs after the
whitelist bonuses and returns 0 outright, so every opportunity whose base
or quote token is blacklisted gets risk score exactly 0, regardless of any
whitelist membership of either token. -/
theorem c10_blacklist_overrides_whitelist (config : ArbX.Config) (opp : ArbX.Opportunity)
    (h : opp.base_token ∈ config.risk.blacklisted_tokens ∨
        opp.quote_token ∈ config.risk.blacklisted_tokens) :
    ArbX.calculate_risk_score config opp = 0 := by
  simp only [ArbX.calculate_risk_score]
  rw [if_pos h]

/-- Witness for claim C10: the base token of `c10Opp` is blacklisted while
also being whitelisted, and the risk score is 0. -/
theorem c10_blacklist_overrides_whitelist_witness :
    ArbX.calculate_risk_score ArbX.c10Config ArbX.c10Opp = 0 ∧
    ArbX.c10Opp.base_token ∈ ArbX.c10Config.risk.whitelisted_tokens :=
  ⟨c10_blacklist_overrides_whitelist ArbX.c10Config ArbX.c10Opp
      (Or.inl (by simp [ArbX.c10Config, ArbX.c10Opp])),
    by simp [ArbX.c10Config, ArbX.c10Opp]⟩

/-- Claim C9 counterexample: installing the out-of-range configuration
`max_slippage_bps = 20000 > 10_000` through `update_config` succeeds and
returns it unchanged — there is no `ConfigInvalid` failure path in the
guard — and the guard then operates with it: evaluating scenario S1's
opportunity under the bad configuration computes a 200 USD slippage and
returns `(false, -122.5)` instead of refusing to run. -/
theorem c9_counterexample :
    ArbX.update_config ArbX.s1Config ArbX.c9BadConfig = ArbX.c9BadConfig ∧
    10000 < ArbX.c9BadConfig.max_slippage_bps ∧
    ArbX.is_profitable ArbX.c9BadConfig ArbX.s1Opportunity 10 2 (1/2) =
      (false, -245/2) := by
  refine ⟨rfl, by norm_num [ArbX.c9BadConfig], ?_⟩
  simp only [ArbX.is_profitable, ArbX.c9BadConfig, ArbX.s1Opportunity, Prod.mk.injEq,
    decide_eq_false_iff_not]
  norm_num

/-- Claim C9 amended: `update_config` performs no range validation at all —
it installs any supplied configuration verbatim (there is no `ConfigInvalid`
error anywhere in the guard), and the guard subsequently computes with the
out-of-range values, as the bad-configuration evaluation shows. -/
theorem c9_amended_no_validation :
    (∀ old_config new_config : ArbX.ProfitabilityConfig,
      ArbX.update_config old_config new_config = new_config) ∧
    (ArbX.is_profitable ArbX.c9BadConfig ArbX.s1Opportunity 10 2 (1/2)).1 = false := by
  refine ⟨fun _ _ => rfl, ?_⟩
  simp only [ArbX.is_profitable, ArbX.c9BadConfig, ArbX.s1Opportunity,
    decide_eq_false_iff_not]
  norm_num
